import Mathlib

/-!
Verification of the df-rest-auth-jwt authentication flow.

Shallow embedding of the decision logic in `df_auth/drf/serializers.py` and
`df_auth/drf/viewsets.py`: blank-field stripping, the prioritized
authentication-backend chain, token issuance, OTP device creation and
confirmation, and the social-login handshake.  Submitted request data is
modelled as an association list of string key/value pairs (a Python dict of
string fields); Python truthiness of a string value is emptiness testing.
-/

namespace DfAuth

/-- Submitted serializer fields: a dict of string-valued fields
(`attrs` in the serializers). -/
abbrev Attrs := List (String × String)

/-- Python `attrs.get(k)`: first binding of key `k`, if any. -/
def lookupAttr (k : String) (attrs : Attrs) : Option String :=
  (attrs.find? (fun kv => kv.1 = k)).map (·.2)

/-- Assignment `attrs[k] = v`: replace the binding of `k`, or append it when absent. -/
def setAttr (k v : String) (attrs : Attrs) : Attrs :=
  if (attrs.find? (fun kv => kv.1 = k)).isSome then
    attrs.map (fun kv => if kv.1 = k then (k, v) else kv)
  else
    attrs ++ [(k, v)]

/-- The comprehension `\x7bk: v for k, v in attrs.items() if v\x7d` — drop falsy (empty-string)
values (serializers.py lines 78 and 106). -/
def filterBlank (attrs : Attrs) : Attrs :=
  attrs.filter (fun kv => kv.2 ≠ "")

/-- Error values surfaced by the flow.  `authenticationFailed` carries the
DRF detail string and error code; `validationError` carries its detail;
`wrongOTP` is `df_auth.exceptions.WrongOTPError`; `doesNotExist` is the
ORM lookup failure from `Model.objects.get`; `keyError` is a Python
`KeyError` on the named dict key. -/
inductive AuthError where
  | authenticationFailed (detail : String) (code : String)
  | validationError (detail : String)
  | wrongOTP
  | doesNotExist
  | keyError (key : String)
  deriving Repr, DecidableEq

/-- Bare `exceptions.AuthenticationFailed()` with the DRF default detail and code. -/
def authFailedDefault : AuthError :=
  .authenticationFailed "Incorrect authentication credentials." "authentication_failed"

/-- The error `exceptions.AuthenticationFailed("Authorization backend not found",
code="not_found")` — serializers.py lines 115-117. -/
def backendNotFoundError : AuthError :=
  .authenticationFailed "Authorization backend not found" "not_found"

/-- The user model of the test app: identity fields, names, active flag. -/
structure User where
  id : Nat
  username : String
  email : String
  phone_number : String
  first_name : String
  last_name : String
  is_active : Bool
  deriving Repr, DecidableEq

/-- An entry of `AUTHENTICATION_BACKENDS`.  `capability?` is `some m` when
`hasattr(backend, backend_method_name)` holds, and `m` is then the bound
capability method (e.g. `generate_challenge`), resolving submitted attrs to
an optional user; `none` models a backend without the attribute. -/
structure AuthBackend where
  capability? : Option (Attrs → Option User)

/-- The backend loop of `AuthBackendSerializerMixin.validate`
(serializers.py lines 108-117), run on already-filtered attrs: skip
backends lacking the capability; call the capability of each remaining
backend in order; the first non-null user returns `attrs` (with that user);
falling off the end raises the "not_found" `AuthenticationFailed`. -/
def resolveChain (backends : List AuthBackend) (attrs : Attrs) :
    Except AuthError (Attrs × User) :=
  match backends with
  | [] => .error backendNotFoundError
  | b :: rest =>
    match b.capability? with
    | none => resolveChain rest attrs
    | some m =>
      match m attrs with
      | some u => .ok (attrs, u)
      | none => resolveChain rest attrs

/-- Method `AuthBackendSerializerMixin.validate` (serializers.py lines 105-117):
strip blank values, then iterate the backend chain. -/
def authBackendValidate (backends : List AuthBackend) (attrs : Attrs) :
    Except AuthError (Attrs × User) :=
  resolveChain backends (filterBlank attrs)

/-- Instrumentation of `resolveChain`: one flag per backend of the chain,
true exactly when that backend's capability method is invoked during
resolution.  A backend without the capability is never invoked; once a
backend returns a user, the backends after it are never invoked. -/
def resolveChainCalls (backends : List AuthBackend) (attrs : Attrs) :
    List Bool :=
  match backends with
  | [] => []
  | b :: rest =>
    match b.capability? with
    | none => false :: resolveChainCalls rest attrs
    | some m =>
      match m attrs with
      | some _ => true :: rest.map (fun _ => false)
      | none => true :: resolveChainCalls rest attrs

/-- Method `TokenCreateSerializer.validate` (serializers.py lines 59-70).
`rule` is `simplejwt_settings.USER_AUTHENTICATION_RULE` applied to
`self.user` (which may be `None` after a failed `authenticate`), `forUser`
is `str(token_class.for_user(user))`, `updateLastLogin` is
`simplejwt_settings.UPDATE_LAST_LOGIN`.  On success returns the attrs with
`attrs["token"]` set, plus whether `update_last_login` ran. -/
def tokenCreateValidate (rule : Option User → Bool)
    (forUser : Option User → String) (updateLastLogin : Bool)
    (user : Option User) (attrs : Attrs) :
    Except AuthError (Attrs × Bool) :=
  if ¬ rule user then
    .error authFailedDefault
  else
    .ok (setAttr "token" (forUser user) attrs, updateLastLogin)

/-- The simplejwt default `USER_AUTHENTICATION_RULE`:
`user is not None and user.is_active`. -/
def defaultAuthRule (user : Option User) : Bool :=
  match user with
  | none => false
  | some u => u.is_active

/-- Method `TokenObtainSerializer.validate` (serializers.py lines 74-80): strip
blank values, resolve `self.user` through the framework `authenticate`
call, then run `TokenCreateSerializer.validate` on the filtered attrs. -/
def tokenObtainValidate (authenticate : Attrs → Option User)
    (rule : Option User → Bool) (forUser : Option User → String)
    (updateLastLogin : Bool) (attrs : Attrs) :
    Except AuthError (Attrs × Bool) :=
  let attrs := filterBlank attrs
  tokenCreateValidate rule forUser updateLastLogin (authenticate attrs) attrs

/-! ## OTP devices -/

/-- The device kinds configured by `DEFAULTS["OTP_DEVICE_MODELS"]`
(settings.py lines 28-32): `email ↦ EmailDevice`, `totp ↦ TOTPDevice`,
`sms ↦ TwilioSMSDevice`. -/
inductive DeviceKind where
  | email
  | totp
  | sms
  deriving Repr, DecidableEq

/-- Modelled from the spec: `get_otp_device_models` (df_auth/utils.py, not
under src/) resolves `DEFAULTS["OTP_DEVICE_MODELS"]` from settings.py;
its key set, in declaration order, is `email`, `totp`, `sms`. -/
def otpDeviceModelKeys : List String := ["email", "totp", "sms"]

/-- Key lookup in the `OTP_DEVICE_MODELS` mapping: which configured device
model a submitted kind string resolves to, if any. -/
def kindOfString (s : String) : Option DeviceKind :=
  if s = "email" then some .email
  else if s = "totp" then some .totp
  else if s = "sms" then some .sms
  else none

/-- A second-factor device row, tagged by its model kind.  `name` is the
common `Device.name` column; `email` is `EmailDevice.email`; `number` is
`TwilioSMSDevice.number`; fields of the other models are empty. -/
structure OtpDevice where
  id : Nat
  userId : Nat
  kind : DeviceKind
  name : String
  email : String
  number : String
  confirmed : Bool
  deriving Repr, DecidableEq

/-- The error `DfAuthValidationError` with detail `Invalid device type. Must be one of ...`
(viewsets.py lines 116-118): the detail enumerates the configured kinds. -/
def invalidDeviceTypeError : AuthError :=
  .validationError "Invalid device type. Must be one of email, totp, sms"

/-- Method `OtpDeviceViewSet.get_device_model` (viewsets.py lines 112-119): read
the `type` query parameter; a value outside `OTP_DEVICE_MODELS` (including
an absent parameter) raises the enumerating validation error. -/
def getDeviceModel (typeParam : Option String) : Except AuthError DeviceKind :=
  match typeParam with
  | none => .error invalidDeviceTypeError
  | some s =>
    match kindOfString s with
    | none => .error invalidDeviceTypeError
    | some k => .ok k

/-- Lookup `DeviceModel.objects.get(user=request.user, pk=pk)` restricted to the
resolved model's table: the row must match the model kind, the requesting
user and the primary key. -/
def findDevice (devices : List OtpDevice) (kind : DeviceKind)
    (userId pk : Nat) : Option OtpDevice :=
  devices.find? (fun d => d.kind = kind ∧ d.userId = userId ∧ d.id = pk)

/-- Call `device.save()` after mutating a fetched row: write the row back over
the store entry with the same model kind and primary key. -/
def saveDevice (d : OtpDevice) (devices : List OtpDevice) : List OtpDevice :=
  devices.map (fun e => if e.kind = d.kind ∧ e.id = d.id then d else e)

/-- The incoming request of a detail OTP-device action: requesting
authenticated user, `pk` URL kwarg, `type` query parameter, and the parsed
request body (`request.data`). -/
structure ConfirmRequest where
  userId : Nat
  pk : Nat
  typeParam : Option String
  body : Attrs
  deriving Repr

/-- Expression `self.request.data.get("otp")` (viewsets.py line 132): the value handed
to `device.verify_token`, read from the body under the key `"otp"` (`None`
when absent). -/
def confirmVerifyArg (req : ConfirmRequest) : Option String :=
  lookupAttr "otp" req.body

/-- Outcome of `OtpDeviceViewSet.confirm`: the raised error if any, and the
post-state of the device store and of the requesting user's row (unchanged
whenever an error is raised, since every raise precedes every save). -/
structure ConfirmResult where
  error? : Option AuthError
  devices : List OtpDevice
  user : User
  deriving Repr

/-- Action `OtpDeviceViewSet.confirm` (viewsets.py lines 131-148), with
`get_object` inlined (lines 121-124).  `verifyToken` is the device's
native `verify_token`; `identityUpdate` is
`api_settings.OTP_IDENTITY_UPDATE_FIELD`.  Resolve the device model from
the `type` query parameter, fetch the device by requesting user and pk,
verify the submitted code, set `confirmed = True` and save, then — when
configured — copy the device's address onto the user's identity field
(`EmailDevice` → `user.email = device.name`, `TwilioSMSDevice` →
`user.phone_number = device.number`) and save the user. -/
def confirmAction (verifyToken : OtpDevice → Option String → Bool)
    (identityUpdate : Bool) (req : ConfirmRequest)
    (devices : List OtpDevice) (user : User) : ConfirmResult :=
  match getDeviceModel req.typeParam with
  | .error e => ⟨some e, devices, user⟩
  | .ok kind =>
    match findDevice devices kind req.userId req.pk with
    | none => ⟨some .doesNotExist, devices, user⟩
    | some device =>
      if ¬ verifyToken device (confirmVerifyArg req) then
        ⟨some .wrongOTP, devices, user⟩
      else
        let device := { device with confirmed := true }
        let devices := saveDevice device devices
        if identityUpdate then
          match device.kind with
          | .email => ⟨none, devices, { user with email := device.name }⟩
          | .sms => ⟨none, devices, { user with phone_number := device.number }⟩
          | .totp => ⟨none, devices, user⟩
        else
          ⟨none, devices, user⟩

/-- Setting `DEFAULTS["OTP_IDENTITY_UPDATE_FIELD"]` (settings.py line 27). -/
def defaultOtpIdentityUpdateField : Bool := true

/-- Serializer `OTPDeviceConfirmSerializer` (serializers.py lines 210-211): its one
field `code` is a required, non-blank `CharField`; validating a body
without a non-empty `"code"` value is a validation error, otherwise the
code string is accepted. -/
def otpDeviceConfirmSerializerValidate (body : Attrs) :
    Except AuthError String :=
  match lookupAttr "code" body with
  | none => .error (.validationError "code: This field is required.")
  | some c =>
    if c = "" then .error (.validationError "code: This field may not be blank.")
    else .ok c

/-- Serializer-created devices keep `name` in sync with the kind-specific
address column: an email device's `email` equals its `name`, an SMS
device's `number` equals its `name` (OTPDeviceSerializer.create,
serializers.py lines 202-205). -/
def deviceAddressConsistent (d : OtpDevice) : Prop :=
  (d.kind = .email → d.email = d.name) ∧ (d.kind = .sms → d.number = d.name)

/-- Modelled from the spec: `get_otp_device_choices` (df_auth/utils.py, not
under src/) enumerates the `OTP_DEVICE_MODELS` keys as the choice set of
the serializer's `type` field; DRF `ChoiceField` validation rejects a
submitted kind outside that enumerated set with a validation error.  The
error detail is taken to enumerate the valid kinds, as
`OtpDeviceViewSet.get_device_model` does for the same check. -/
def otpDeviceTypeFieldValidate (s : String) : Except AuthError DeviceKind :=
  match kindOfString s with
  | none => .error invalidDeviceTypeError
  | some k => .ok k

/-- Method `OTPDeviceSerializer.create` (serializers.py lines 188-207), preceded
by the `type` choice-field validation.  `name?` is the optional `name`
field of the validated data; `freshId` is the primary key the ORM assigns.
The created row is owned by the requesting user with `confirmed = False`;
for kind `sms` the submitted name is also written to `number`, for kind
`email` to `email` (a missing name is then a `KeyError`). -/
def otpDeviceSerializerCreate (requestUserId freshId : Nat)
    (typeStr : String) (name? : Option String) :
    Except AuthError OtpDevice :=
  match otpDeviceTypeFieldValidate typeStr with
  | .error e => .error e
  | .ok kind =>
    let d : OtpDevice :=
      { id := freshId, userId := requestUserId, kind := kind,
        name := name?.getD "", email := "", number := "",
        confirmed := false }
    match kind with
    | .sms =>
      match name? with
      | none => .error (.keyError "name")
      | some n => .ok { d with number := n }
    | .email =>
      match name? with
      | none => .error (.keyError "name")
      | some n => .ok { d with email := n }
    | .totp => .ok d

/-! ## Social handshake -/

/-- Exceptions that `request.backend.do_auth` may raise:
`social_core.exceptions.AuthCanceled`, `AuthForbidden`, or any other
exception class (carrying its provider-specific detail). -/
inductive ProviderException where
  | authCanceled (detail : String)
  | authForbidden (detail : String)
  | other (name : String) (detail : String)
  deriving Repr, DecidableEq

/-- Outcome of the guarded `do_auth` call in
`SocialTokenObtainSerializer.validate` (serializers.py lines 149-152):
a resolved user, a raised `AuthenticationFailed`, or an exception that
propagates unhandled out of the serializer. -/
inductive SocialAuthOutcome where
  | ok (user : User)
  | authFailed (e : AuthError)
  | propagated (e : ProviderException)
  deriving Repr, DecidableEq

/-- The `try/except` around `do_auth` (serializers.py lines 149-152):
exactly `AuthCanceled` and `AuthForbidden` are converted to a bare
`AuthenticationFailed()`; every other exception propagates; a returned
user passes through. -/
def socialDoAuth (result : Except ProviderException User) :
    SocialAuthOutcome :=
  match result with
  | .ok u => .ok u
  | .error (.authCanceled _) => .authFailed authFailedDefault
  | .error (.authForbidden _) => .authFailed authFailedDefault
  | .error e => .propagated e

/-- One iteration of the backfill loop of
`SocialTokenObtainSerializer.validate` (serializers.py lines 155-160) for
the attribute read by `get` and written by `set`: when the user's current
value is falsy and the submitted attrs hold a truthy value for
`fieldName`, write it and record the field in `update_fields`. -/
def backfillField (get : User → String) (set : User → String → User)
    (fieldName : String) (attrs : Attrs) (acc : User × List String) :
    User × List String :=
  if get acc.1 = "" then
    match lookupAttr fieldName attrs with
    | none => acc
    | some v => if v = "" then acc else (set acc.1 v, acc.2 ++ [fieldName])
  else acc

/-- The `first_name`/`last_name` backfill of
`SocialTokenObtainSerializer.validate` (serializers.py lines 154-162):
run the loop over both attributes, returning the possibly-updated user and
the accumulated `update_fields`. -/
def socialNameBackfill (user : User) (attrs : Attrs) :
    User × List String :=
  backfillField (·.last_name) (fun u v => { u with last_name := v })
    "last_name" attrs
    (backfillField (·.first_name) (fun u v => { u with first_name := v })
      "first_name" attrs (user, []))

/-- Call `self.user.save(update_fields=update_fields)` guarded by
`if update_fields:` (serializers.py lines 161-162): the field list passed
to `save`, or `none` when no save happens. -/
def socialSaveFields (user : User) (attrs : Attrs) : Option (List String) :=
  let fs := (socialNameBackfill user attrs).2
  if fs = [] then none else some fs

/-! ## Helper lemmas -/

theorem mem_filterBlank (kv : String × String) (attrs : Attrs) :
    kv ∈ filterBlank attrs ↔ kv ∈ attrs ∧ kv.2 ≠ "" := by
  simp [filterBlank, List.mem_filter]

theorem filterBlank_idem (attrs : Attrs) :
    filterBlank (filterBlank attrs) = filterBlank attrs := by
  simp [filterBlank, List.filter_filter]

theorem filterBlank_append (a b : Attrs) :
    filterBlank (a ++ b) = filterBlank a ++ filterBlank b := by
  simp [filterBlank, List.filter_append]

theorem filterBlank_of_all_blank (b : Attrs) (h : ∀ kv ∈ b, kv.2 = "") :
    filterBlank b = [] := by
  simp only [filterBlank, List.filter_eq_nil_iff]
  intro kv hkv
  simp [h kv hkv]

theorem authBackendValidate_filterBlank (backends : List AuthBackend)
    (attrs : Attrs) :
    authBackendValidate backends (filterBlank attrs) =
      authBackendValidate backends attrs := by
  simp [authBackendValidate, filterBlank_idem]

/-! ## C1 — the two resolution failures are not distinguishable -/

/-- C1 (counterexample): on the input `{email: "a@b.com"}`, a chain whose
single backend exposes the capability but resolves no user fails with
exactly the same error value as a chain whose single backend does not
expose the capability at all — both raise
`AuthenticationFailed("Authorization backend not found", code="not_found")`,
so the two failure cases are not distinct. -/
theorem c1_counterexample :
    authBackendValidate [⟨some (fun _ => none)⟩] [("email", "a@b.com")] =
      authBackendValidate [⟨none⟩] [("email", "a@b.com")] ∧
    authBackendValidate [⟨some (fun _ => none)⟩] [("email", "a@b.com")] =
      .error backendNotFoundError := by
  constructor <;> rfl

/-- C1 (amended): whenever resolution fails — whether because no backend
exposes the requested capability or because the exposed capabilities all
resolve no user — `AuthBackendSerializerMixin.validate` raises one and the
same error, `AuthenticationFailed("Authorization backend not found",
code="not_found")`; the two failure cases are not distinguishable. -/
theorem c1_failure_cases_same_error (backends : List AuthBackend)
    (attrs : Attrs)
    (h : ∀ b ∈ backends, ∀ m, b.capability? = some m →
      m (filterBlank attrs) = none) :
    authBackendValidate backends attrs = .error backendNotFoundError := by
  unfold authBackendValidate
  induction backends with
  | nil => rfl
  | cons b rest ih =>
    have hrest : ∀ b' ∈ rest, ∀ m, b'.capability? = some m →
        m (filterBlank attrs) = none := by
      intro b' hb' m hm
      exact h b' (List.mem_cons_of_mem _ hb') m hm
    unfold resolveChain
    cases hb : b.capability? with
    | none => exact ih hrest
    | some m =>
      have hm0 := h b (List.mem_cons_self b rest) m hb
      show (match m (filterBlank attrs) with
        | some u => Except.ok (filterBlank attrs, u)
        | none => resolveChain rest (filterBlank attrs)) =
          Except.error backendNotFoundError
      rw [hm0]
      exact ih hrest

/-- C1 (witness for the amended theorem): a two-backend chain — one
without the capability, one whose capability resolves nobody — fails with
the "not_found" `AuthenticationFailed`. -/
theorem c1_failure_cases_same_error_witness :
    authBackendValidate [⟨none⟩, ⟨some (fun _ => none)⟩]
      [("email", "a@b.com"), ("password", "")] = .error backendNotFoundError := by
  apply c1_failure_cases_same_error
  intro b hb m hm
  simp only [List.mem_cons, List.not_mem_nil, or_false] at hb
  rcases hb with rfl | rfl
  · exact absurd hm (by simp)
  · injection hm with hm
    subst hm
    rfl

/-! ## C5 — blank fields never reach resolution -/

/-- C5: the filtered field set contains exactly the submitted fields with
non-empty values, and for both resolution flows — the framework
`authenticate` call of `TokenObtainSerializer.validate` and the backend
capability loop of `AuthBackendSerializerMixin.validate` — submitting
blank fields alongside the others leaves the outcome identical to running
on the non-blank fields alone: a blank field never counts as an attempted
identity or credential match. -/
theorem c5_blank_fields_excluded (attrs blanks : Attrs)
    (hb : ∀ kv ∈ blanks, kv.2 = "") :
    (∀ kv, kv ∈ filterBlank (attrs ++ blanks) ↔ kv ∈ attrs ∧ kv.2 ≠ "") ∧
    (∀ auth rule forUser uLL,
      tokenObtainValidate auth rule forUser uLL (attrs ++ blanks) =
        tokenObtainValidate auth rule forUser uLL (filterBlank attrs)) ∧
    (∀ backends,
      authBackendValidate backends (attrs ++ blanks) =
        authBackendValidate backends (filterBlank attrs)) := by
  have hnil : filterBlank blanks = [] := filterBlank_of_all_blank blanks hb
  have hfb : filterBlank (attrs ++ blanks) = filterBlank attrs := by
    rw [filterBlank_append, hnil, List.append_nil]
  refine ⟨?_, ?_, ?_⟩
  · intro kv
    rw [hfb]
    exact mem_filterBlank kv attrs
  · intro auth rule forUser uLL
    simp [tokenObtainValidate, hfb, filterBlank_idem]
  · intro backends
    simp [authBackendValidate, hfb, filterBlank_idem]

/-- C5 (witness): a blank password submitted with a non-blank e-mail is
excluded from the resolution input. -/
theorem c5_blank_fields_excluded_witness :
    (∀ kv, kv ∈ filterBlank ([("email", "a@b.com")] ++ [("password", "")]) ↔
      kv ∈ [("email", "a@b.com")] ∧ kv.2 ≠ "") ∧
    (∀ auth rule forUser uLL,
      tokenObtainValidate auth rule forUser uLL
          ([("email", "a@b.com")] ++ [("password", "")]) =
        tokenObtainValidate auth rule forUser uLL
          (filterBlank [("email", "a@b.com")])) ∧
    (∀ backends,
      authBackendValidate backends ([("email", "a@b.com")] ++ [("password", "")]) =
        authBackendValidate backends (filterBlank [("email", "a@b.com")])) :=
  c5_blank_fields_excluded [("email", "a@b.com")] [("password", "")]
    (by intro kv hkv; simp at hkv; rw [hkv])

/-! ## C6 — the backend chain short-circuits -/

/-- C6: in `AuthBackendSerializerMixin.validate`, the first backend among
those exposing the requested capability whose method resolves a user
determines the result; every backend after it is never invoked, and
backends not exposing the capability are skipped without being invoked
(the per-backend invocation flags equal capability presence up to the
resolving backend and are false afterwards). -/
theorem c6_first_resolver_short_circuits
    (pre post : List AuthBackend) (b : AuthBackend)
    (m : Attrs → Option User) (u : User) (attrs : Attrs)
    (hpre : ∀ b' ∈ pre, ∀ m', b'.capability? = some m' →
      m' (filterBlank attrs) = none)
    (hb : b.capability? = some m)
    (hm : m (filterBlank attrs) = some u) :
    authBackendValidate (pre ++ b :: post) attrs =
      .ok (filterBlank attrs, u) ∧
    resolveChainCalls (pre ++ b :: post) (filterBlank attrs) =
      pre.map (fun b' => b'.capability?.isSome) ++
        true :: post.map (fun _ => false) := by
  induction pre with
  | nil =>
    constructor
    · simp [authBackendValidate, resolveChain, hb, hm]
    · simp [resolveChainCalls, hb, hm]
  | cons b' t ih =>
    have hpt : ∀ x ∈ t, ∀ m', x.capability? = some m' →
        m' (filterBlank attrs) = none :=
      fun x hx => hpre x (List.mem_cons_of_mem _ hx)
    have ih' := ih hpt
    cases hb' : b'.capability? with
    | none =>
      constructor
      · simpa [authBackendValidate, resolveChain, hb'] using ih'.1
      · simpa [resolveChainCalls, hb'] using ih'.2
    | some m' =>
      have hz := hpre b' (List.mem_cons_self b' t) m' hb'
      constructor
      · simpa [authBackendValidate, resolveChain, hb', hz] using ih'.1
      · simpa [resolveChainCalls, hb', hz] using ih'.2

/-- C6 (witness): in a four-backend chain — no capability, capability
resolving nobody, capability resolving a user, capability resolving a
different user — the third backend's user is returned and the invocation
flags are `[false, true, true, false]`: the capability-less backend is
skipped and the backend after the resolver is never consulted. -/
theorem c6_first_resolver_short_circuits_witness :
    authBackendValidate
        [⟨none⟩, ⟨some (fun _ => none)⟩,
         ⟨some (fun _ => some ⟨1, "u", "", "", "", "", true⟩)⟩,
         ⟨some (fun _ => some ⟨2, "w", "", "", "", "", true⟩)⟩]
        [("username", "u"), ("otp", "")] =
      .ok ([("username", "u")], ⟨1, "u", "", "", "", "", true⟩) ∧
    resolveChainCalls
        [⟨none⟩, ⟨some (fun _ => none)⟩,
         ⟨some (fun _ => some ⟨1, "u", "", "", "", "", true⟩)⟩,
         ⟨some (fun _ => some ⟨2, "w", "", "", "", "", true⟩)⟩]
        [("username", "u")] = [false, true, true, false] := by
  have h := c6_first_resolver_short_circuits
    [⟨none⟩, ⟨some (fun _ => none)⟩]
    [⟨some (fun _ => some ⟨2, "w", "", "", "", "", true⟩)⟩]
    ⟨some (fun _ => some ⟨1, "u", "", "", "", "", true⟩)⟩
    (fun _ => some ⟨1, "u", "", "", "", "", true⟩)
    ⟨1, "u", "", "", "", "", true⟩
    [("username", "u"), ("otp", "")]
    (by
      intro b' hb' m' hm'
      simp only [List.mem_cons, List.not_mem_nil, or_false] at hb'
      rcases hb' with rfl | rfl
      · exact absurd hm' (by simp)
      · injection hm' with hm'
        subst hm'
        rfl)
    rfl rfl
  exact h

/-! ## C4 — token issuance gated by the authentication rule -/

theorem find?_map_set (k v : String) (l : Attrs)
    (h : (l.find? (fun kv => kv.1 = k)).isSome) :
    ((l.map (fun kv => if kv.1 = k then (k, v) else kv)).find?
      (fun kv => kv.1 = k)) = some (k, v) := by
  induction l with
  | nil => simp at h
  | cons kv t ih =>
    by_cases hk : kv.1 = k
    · simp [hk]
    · have hd : (decide (kv.1 = k)) = false := by simp [hk]
      simp only [List.find?_cons, hd] at h
      simp only [List.map_cons, if_neg hk, List.find?_cons, hd]
      exact ih h

theorem lookupAttr_setAttr_self (k v : String) (attrs : Attrs) :
    lookupAttr k (setAttr k v attrs) = some v := by
  unfold setAttr
  split
  case isTrue h =>
    unfold lookupAttr
    rw [find?_map_set k v attrs h]
    rfl
  case isFalse h =>
    unfold lookupAttr
    rw [List.find?_append]
    have hnone : attrs.find? (fun kv => kv.1 = k) = none := by
      cases hf : attrs.find? (fun kv => kv.1 = k) with
      | none => rfl
      | some x => rw [hf] at h; simp at h
    rw [hnone]
    simp

/-- C4: `TokenCreateSerializer.validate` — when the configured
`USER_AUTHENTICATION_RULE` rejects the user (e.g. an inactive user under
the default rule), validation raises `AuthenticationFailed` regardless of
the token factory, so no token string is ever produced; when the rule
accepts the user, validation succeeds and the resulting attrs carry the
minted token string under the `"token"` key. -/
theorem c4_token_issuance_rule (rule : Option User → Bool)
    (forUser : Option User → String) (uLL : Bool) (user : Option User)
    (attrs : Attrs) :
    (rule user = false → ∀ forUser',
      tokenCreateValidate rule forUser' uLL user attrs =
        .error authFailedDefault) ∧
    (rule user = true →
      tokenCreateValidate rule forUser uLL user attrs =
        .ok (setAttr "token" (forUser user) attrs, uLL) ∧
      ∀ r, tokenCreateValidate rule forUser uLL user attrs = .ok r →
        lookupAttr "token" r.1 = some (forUser user)) := by
  constructor
  · intro h forUser'
    simp [tokenCreateValidate, h]
  · intro h
    constructor
    · simp [tokenCreateValidate, h]
    · intro r hr
      simp [tokenCreateValidate, h] at hr
      rw [← hr]
      exact lookupAttr_setAttr_self "token" (forUser user) attrs

/-- C4 (witness): under the default rule, issuance for an inactive user
fails with `AuthenticationFailed` and no token is minted, while issuance
for an active user yields attrs whose `"token"` entry is the minted
string. -/
theorem c4_token_issuance_rule_witness :
    (tokenCreateValidate defaultAuthRule (fun _ => "tok")
        true (some ⟨1, "u", "", "", "", "", false⟩) [] =
      .error authFailedDefault) ∧
    (tokenCreateValidate defaultAuthRule (fun _ => "tok")
        true (some ⟨1, "u", "", "", "", "", true⟩) [] =
      .ok (setAttr "token" "tok" [], true)) := by
  constructor
  · exact (c4_token_issuance_rule defaultAuthRule (fun _ => "tok") true
      (some ⟨1, "u", "", "", "", "", false⟩) [] ).1 rfl (fun _ => "tok")
  · exact ((c4_token_issuance_rule defaultAuthRule (fun _ => "tok") true
      (some ⟨1, "u", "", "", "", "", true⟩) [] ).2 rfl).1

/-! ## Device store lemmas -/

theorem findDevice_saveDevice (devices : List OtpDevice) (kind : DeviceKind)
    (uid pk : Nat) (device d' : OtpDevice)
    (hf : findDevice devices kind uid pk = some device)
    (hk : d'.kind = kind) (hu : d'.userId = uid) (hp : d'.id = pk) :
    findDevice (saveDevice d' devices) kind uid pk = some d' := by
  induction devices with
  | nil => simp [findDevice] at hf
  | cons e t ih =>
    rw [findDevice, saveDevice, List.map_cons]
    by_cases he : e.kind = d'.kind ∧ e.id = d'.id
    · rw [if_pos he, List.find?_cons_of_pos]
      simp only [decide_eq_true_eq]
      exact ⟨hk, hu, hp⟩
    · have hpe : ¬(e.kind = kind ∧ e.userId = uid ∧ e.id = pk) := by
        intro hcon
        exact he ⟨hcon.1.trans hk.symm, hcon.2.2.trans hp.symm⟩
      rw [if_neg he, List.find?_cons_of_neg _ (by simpa using hpe)]
      have hf' : findDevice t kind uid pk = some device := by
        rw [findDevice, List.find?_cons_of_neg _ (by simpa using hpe)] at hf
        exact hf
      exact ih hf'

theorem mem_saveDevice_of_ne (e d' : OtpDevice) (devices : List OtpDevice)
    (hmem : e ∈ devices) (hne : ¬(e.kind = d'.kind ∧ e.id = d'.id)) :
    e ∈ saveDevice d' devices := by
  unfold saveDevice
  have : (if e.kind = d'.kind ∧ e.id = d'.id then d' else e) = e := if_neg hne
  rw [← this]
  exact List.mem_map_of_mem _ hmem

theorem findDevice_props (devices : List OtpDevice) (kind : DeviceKind)
    (uid pk : Nat) (device : OtpDevice)
    (hf : findDevice devices kind uid pk = some device) :
    device ∈ devices ∧ device.kind = kind ∧ device.userId = uid ∧
      device.id = pk := by
  have hmem := List.mem_of_find?_eq_some hf
  have hpred := List.find?_some hf
  simp only [decide_eq_true_eq] at hpred
  exact ⟨hmem, hpred⟩

theorem confirmAction_eq_of_found (v : OtpDevice → Option String → Bool)
    (identityUpdate : Bool) (req : ConfirmRequest)
    (devices : List OtpDevice) (user : User) (kind : DeviceKind)
    (device : OtpDevice)
    (hk : getDeviceModel req.typeParam = .ok kind)
    (hf : findDevice devices kind req.userId req.pk = some device)
    (hv : v device (confirmVerifyArg req) = true) :
    confirmAction v identityUpdate req devices user =
      ⟨none, saveDevice { device with confirmed := true } devices,
        if identityUpdate then
          (match device.kind with
           | .email => { user with email := device.name }
           | .sms => { user with phone_number := device.number }
           | .totp => user)
        else user⟩ := by
  cases identityUpdate with
  | false => simp [confirmAction, hk, hf, hv]
  | true =>
    cases hdk : device.kind <;> simp [confirmAction, hk, hf, hv, hdk]

/-! ## C2 — accepted confirmation: persisted flag and opt-in identity update -/

/-- C2: when `OtpDeviceViewSet.confirm` accepts the submitted code, the
device is persisted with `confirmed = true`, and the user's identity field
is updated exactly when `OTP_IDENTITY_UPDATE_FIELD` is enabled: an email
device propagates its address into `user.email`, an SMS device propagates
its address into `user.phone_number`, never both from a single device
kind, and with the option disabled neither field changes. -/
theorem c2_confirm_identity_update (v : OtpDevice → Option String → Bool)
    (identityUpdate : Bool) (req : ConfirmRequest)
    (devices : List OtpDevice) (user : User) (kind : DeviceKind)
    (device : OtpDevice)
    (hk : getDeviceModel req.typeParam = .ok kind)
    (hf : findDevice devices kind req.userId req.pk = some device)
    (hv : v device (confirmVerifyArg req) = true)
    (hwf : deviceAddressConsistent device) :
    (confirmAction v identityUpdate req devices user).error? = none ∧
    findDevice (confirmAction v identityUpdate req devices user).devices
        kind req.userId req.pk = some { device with confirmed := true } ∧
    (confirmAction v identityUpdate req devices user).user.email =
      (if identityUpdate = true ∧ device.kind = .email then device.email
       else user.email) ∧
    (confirmAction v identityUpdate req devices user).user.phone_number =
      (if identityUpdate = true ∧ device.kind = .sms then device.number
       else user.phone_number) := by
  obtain ⟨hmem, hdk, hdu, hdp⟩ :=
    findDevice_props devices kind req.userId req.pk device hf
  have hsave := findDevice_saveDevice devices kind req.userId req.pk device
    { device with confirmed := true } hf (by simp [hdk]) (by simp [hdu])
    (by simp [hdp])
  rw [confirmAction_eq_of_found v identityUpdate req devices user kind device
    hk hf hv]
  refine ⟨rfl, hsave, ?_, ?_⟩
  · cases identityUpdate with
    | false => simp
    | true =>
      cases hdk2 : device.kind with
      | email => simp [hwf.1 hdk2]
      | sms => simp [hdk2]
      | totp => simp [hdk2]
  · cases identityUpdate with
    | false => simp
    | true =>
      cases hdk2 : device.kind with
      | email => simp [hdk2]
      | sms => simp [hdk2]
      | totp => simp [hdk2]

/-- C2 (witness): with identity update enabled, confirming a
serializer-created email device named `a@b.com` sets `user.email` to
`a@b.com` and leaves `user.phone_number` unchanged. -/
theorem c2_confirm_identity_update_witness :
    ((confirmAction (fun _ _ => true) defaultOtpIdentityUpdateField
        ⟨7, 3, some "email", [("otp", "123456")]⟩
        [⟨3, 7, .email, "a@b.com", "a@b.com", "", false⟩]
        ⟨7, "u", "old@x.com", "+111", "", "", true⟩).error? = none) ∧
    (findDevice (confirmAction (fun _ _ => true) defaultOtpIdentityUpdateField
        ⟨7, 3, some "email", [("otp", "123456")]⟩
        [⟨3, 7, .email, "a@b.com", "a@b.com", "", false⟩]
        ⟨7, "u", "old@x.com", "+111", "", "", true⟩).devices .email 7 3 =
      some ⟨3, 7, .email, "a@b.com", "a@b.com", "", true⟩) ∧
    ((confirmAction (fun _ _ => true) defaultOtpIdentityUpdateField
        ⟨7, 3, some "email", [("otp", "123456")]⟩
        [⟨3, 7, .email, "a@b.com", "a@b.com", "", false⟩]
        ⟨7, "u", "old@x.com", "+111", "", "", true⟩).user.email =
      (if defaultOtpIdentityUpdateField = true ∧
          (⟨3, 7, .email, "a@b.com", "a@b.com", "", false⟩ : OtpDevice).kind
            = .email then "a@b.com" else "old@x.com")) ∧
    ((confirmAction (fun _ _ => true) defaultOtpIdentityUpdateField
        ⟨7, 3, some "email", [("otp", "123456")]⟩
        [⟨3, 7, .email, "a@b.com", "a@b.com", "", false⟩]
        ⟨7, "u", "old@x.com", "+111", "", "", true⟩).user.phone_number =
      (if defaultOtpIdentityUpdateField = true ∧
          (⟨3, 7, .email, "a@b.com", "a@b.com", "", false⟩ : OtpDevice).kind
            = .sms then "" else "+111")) :=
  c2_confirm_identity_update (fun _ _ => true) defaultOtpIdentityUpdateField
    ⟨7, 3, some "email", [("otp", "123456")]⟩
    [⟨3, 7, .email, "a@b.com", "a@b.com", "", false⟩]
    ⟨7, "u", "old@x.com", "+111", "", "", true⟩ .email
    ⟨3, 7, .email, "a@b.com", "a@b.com", "", false⟩
    rfl rfl rfl ⟨fun _ => rfl, fun h => by cases h⟩

/-! ## C3 — ownership lookup precedes verification; failure leaves state -/

/-- C3: in `OtpDeviceViewSet.confirm`, the device is fetched by
(requesting user, pk) within the resolved model before any code check: a
nonexistent or foreign device yields the lookup failure for every verify
behaviour (verification is never reached); a rejected code raises
`WrongOTPError` with the device store and user untouched; an accepted
code on an unconfirmed device persists `confirmed = true` for that device
and leaves every other device row unchanged. -/
theorem c3_confirm_lookup_precedes_verify (identityUpdate : Bool)
    (req : ConfirmRequest) (devices : List OtpDevice) (user : User)
    (kind : DeviceKind)
    (hk : getDeviceModel req.typeParam = .ok kind) :
    (findDevice devices kind req.userId req.pk = none →
      ∀ v₁ v₂ : OtpDevice → Option String → Bool,
        confirmAction v₁ identityUpdate req devices user =
          confirmAction v₂ identityUpdate req devices user ∧
        confirmAction v₁ identityUpdate req devices user =
          ⟨some .doesNotExist, devices, user⟩) ∧
    (∀ device v, findDevice devices kind req.userId req.pk = some device →
      v device (confirmVerifyArg req) = false →
        confirmAction v identityUpdate req devices user =
          ⟨some .wrongOTP, devices, user⟩) ∧
    (∀ device v, findDevice devices kind req.userId req.pk = some device →
      v device (confirmVerifyArg req) = true → device.confirmed = false →
        (confirmAction v identityUpdate req devices user).error? = none ∧
        findDevice (confirmAction v identityUpdate req devices user).devices
            kind req.userId req.pk = some { device with confirmed := true } ∧
        ∀ e ∈ devices, ¬(e.kind = kind ∧ e.id = req.pk) →
          e ∈ (confirmAction v identityUpdate req devices user).devices) := by
  refine ⟨?_, ?_, ?_⟩
  · intro hnone v₁ v₂
    constructor <;> simp [confirmAction, hk, hnone]
  · intro device v hf hv
    simp [confirmAction, hk, hf, hv]
  · intro device v hf hv _hc
    obtain ⟨hmem, hdk, hdu, hdp⟩ :=
      findDevice_props devices kind req.userId req.pk device hf
    rw [confirmAction_eq_of_found v identityUpdate req devices user kind
      device hk hf hv]
    refine ⟨rfl, ?_, ?_⟩
    · exact findDevice_saveDevice devices kind req.userId req.pk device
        { device with confirmed := true } hf (by simp [hdk]) (by simp [hdu])
        (by simp [hdp])
    · intro e hmem' hne
      refine mem_saveDevice_of_ne e { device with confirmed := true }
        devices hmem' ?_
      intro hcon
      refine hne ?_
      constructor
      · simpa [hdk] using hcon.1
      · simpa [hdp] using hcon.2

/-- C3 (witness): with one SMS device owned by user 7 under pk 3, a
request for pk 4 fails with the lookup error for any verify behaviour; a
rejected code leaves the store and user untouched; an accepted code flips
the device's `confirmed` flag to true. -/
theorem c3_confirm_lookup_precedes_verify_witness :
    (confirmAction (fun _ _ => true) true ⟨7, 4, some "sms", []⟩
        [⟨3, 7, .sms, "+15551234", "", "+15551234", false⟩]
        ⟨7, "u", "", "", "", "", true⟩ =
      ⟨some .doesNotExist, [⟨3, 7, .sms, "+15551234", "", "+15551234", false⟩],
        ⟨7, "u", "", "", "", "", true⟩⟩) ∧
    (confirmAction (fun _ _ => false) true ⟨7, 3, some "sms", []⟩
        [⟨3, 7, .sms, "+15551234", "", "+15551234", false⟩]
        ⟨7, "u", "", "", "", "", true⟩ =
      ⟨some .wrongOTP, [⟨3, 7, .sms, "+15551234", "", "+15551234", false⟩],
        ⟨7, "u", "", "", "", "", true⟩⟩) ∧
    (findDevice (confirmAction (fun _ _ => true) true ⟨7, 3, some "sms", []⟩
        [⟨3, 7, .sms, "+15551234", "", "+15551234", false⟩]
        ⟨7, "u", "", "", "", "", true⟩).devices .sms 7 3 =
      some ⟨3, 7, .sms, "+15551234", "", "+15551234", true⟩) := by
  refine ⟨?_, ?_, ?_⟩
  · exact ((c3_confirm_lookup_precedes_verify true ⟨7, 4, some "sms", []⟩
      [⟨3, 7, .sms, "+15551234", "", "+15551234", false⟩]
      ⟨7, "u", "", "", "", "", true⟩ .sms rfl).1 rfl
      (fun _ _ => true) (fun _ _ => true)).2
  · exact (c3_confirm_lookup_precedes_verify true ⟨7, 3, some "sms", []⟩
      [⟨3, 7, .sms, "+15551234", "", "+15551234", false⟩]
      ⟨7, "u", "", "", "", "", true⟩ .sms rfl).2.1
      ⟨3, 7, .sms, "+15551234", "", "+15551234", false⟩
      (fun _ _ => false) rfl rfl
  · exact ((c3_confirm_lookup_precedes_verify true ⟨7, 3, some "sms", []⟩
      [⟨3, 7, .sms, "+15551234", "", "+15551234", false⟩]
      ⟨7, "u", "", "", "", "", true⟩ .sms rfl).2.2
      ⟨3, 7, .sms, "+15551234", "", "+15551234", false⟩
      (fun _ _ => true) rfl rfl rfl).2.1

/-! ## C8 — device creation -/

/-- C8: `OTPDeviceSerializer.create` yields, for each valid kind, a device
owned by the requesting user with `confirmed = false`; for kind `sms` the
submitted name also populates the device's number field, for kind `email`
the device's email field, and for `totp` neither; a kind outside the
configured model mapping is rejected with the validation error whose
detail enumerates the valid kinds. -/
theorem c8_device_serializer_create (uid fid : Nat) (n : String) :
    (otpDeviceSerializerCreate uid fid "email" (some n) =
      .ok ⟨fid, uid, .email, n, n, "", false⟩) ∧
    (otpDeviceSerializerCreate uid fid "sms" (some n) =
      .ok ⟨fid, uid, .sms, n, "", n, false⟩) ∧
    (otpDeviceSerializerCreate uid fid "totp" (some n) =
      .ok ⟨fid, uid, .totp, n, "", "", false⟩) ∧
    (∀ s, kindOfString s = none →
      otpDeviceSerializerCreate uid fid s (some n) =
        .error invalidDeviceTypeError) ∧
    invalidDeviceTypeError =
      .validationError ("Invalid device type. Must be one of " ++
        String.intercalate ", " otpDeviceModelKeys) := by
  refine ⟨rfl, rfl, rfl, ?_, by decide⟩
  intro s hs
  simp [otpDeviceSerializerCreate, otpDeviceTypeFieldValidate, hs]

/-- C8 (witness): creating an email device named `a@b.com` for user 7
yields an unconfirmed device owned by 7 whose email field is `a@b.com`,
and the kind `"foo"` is rejected with the enumerating validation error. -/
theorem c8_device_serializer_create_witness :
    (otpDeviceSerializerCreate 7 1 "email" (some "a@b.com") =
      .ok ⟨1, 7, .email, "a@b.com", "a@b.com", "", false⟩) ∧
    (otpDeviceSerializerCreate 7 1 "sms" (some "a@b.com") =
      .ok ⟨1, 7, .sms, "a@b.com", "", "a@b.com", false⟩) ∧
    (otpDeviceSerializerCreate 7 1 "foo" (some "a@b.com") =
      .error invalidDeviceTypeError) := by
  have h := c8_device_serializer_create 7 1 "a@b.com"
  exact ⟨h.1, h.2.1, h.2.2.2.1 "foo" rfl⟩

/-! ## C10 — confirm reads `otp`, not the serializer's `code` field -/

/-- C10: `OtpDeviceViewSet.confirm` reads the submitted code from the
request body under the key `"otp"` and never runs its declared
`OTPDeviceConfirmSerializer`: for a body carrying a non-blank `"code"`
value but no `"otp"` key — which the declared serializer would accept —
the value handed to `verify_token` is `None`, and the action's outcome is
decided solely by the device's verification of `None` (wrong-code failure
or success), never by a missing-field validation error. -/
theorem c10_confirm_ignores_declared_serializer (identityUpdate : Bool)
    (req : ConfirmRequest) (devices : List OtpDevice) (user : User)
    (kind : DeviceKind) (device : OtpDevice) (c : String)
    (hk : getDeviceModel req.typeParam = .ok kind)
    (hno : lookupAttr "otp" req.body = none)
    (hcode : lookupAttr "code" req.body = some c) (hc : c ≠ "")
    (hf : findDevice devices kind req.userId req.pk = some device) :
    otpDeviceConfirmSerializerValidate req.body = .ok c ∧
    confirmVerifyArg req = none ∧
    ∀ v : OtpDevice → Option String → Bool,
      (confirmAction v identityUpdate req devices user).error? =
        (if v device none = true then none else some .wrongOTP) := by
  have harg : confirmVerifyArg req = none := hno
  refine ⟨?_, harg, ?_⟩
  · simp [otpDeviceConfirmSerializerValidate, hcode, hc]
  · intro v
    cases hv : v device none with
    | true =>
      rw [confirmAction_eq_of_found v identityUpdate req devices user kind
        device hk hf (by rw [harg]; exact hv)]
      simp
    | false =>
      simp [confirmAction, hk, hf, harg, hv]

/-- C10 (witness): a body `{code: "123456"}` is accepted by the declared
serializer, yet confirm passes `None` to verification, and with a device
whose verification rejects `None` the action fails with `WrongOTPError`
rather than a validation error. -/
theorem c10_confirm_ignores_declared_serializer_witness :
    otpDeviceConfirmSerializerValidate [("code", "123456")] = .ok "123456" ∧
    confirmVerifyArg ⟨7, 3, some "totp", [("code", "123456")]⟩ = none ∧
    (confirmAction (fun _ otp => otp.isSome) true
        ⟨7, 3, some "totp", [("code", "123456")]⟩
        [⟨3, 7, .totp, "app", "", "", false⟩]
        ⟨7, "u", "", "", "", "", true⟩).error? =
      (if (fun (_ : OtpDevice) (otp : Option String) => otp.isSome)
          ⟨3, 7, .totp, "app", "", "", false⟩ none = true
       then none else some .wrongOTP) := by
  have h := c10_confirm_ignores_declared_serializer true
    ⟨7, 3, some "totp", [("code", "123456")]⟩
    [⟨3, 7, .totp, "app", "", "", false⟩]
    ⟨7, "u", "", "", "", "", true⟩ .totp
    ⟨3, 7, .totp, "app", "", "", false⟩ "123456"
    rfl rfl rfl (by decide) rfl
  exact ⟨h.1, h.2.1, h.2.2 (fun _ otp => otp.isSome)⟩

/-! ## C7 — social name backfill -/

/-- C7: after a successful social handshake, `first_name` and `last_name`
are backfilled only onto currently-empty user fields — an existing
non-empty value is never overwritten — no other user field is touched, a
save happens only when at least one field changed, the saved field list is
exactly the accumulated `update_fields`, and a field appears in
`update_fields` exactly when its value changed. -/
theorem c7_social_backfill (user : User) (attrs : Attrs) :
    (user.first_name ≠ "" →
      (socialNameBackfill user attrs).1.first_name = user.first_name) ∧
    (user.last_name ≠ "" →
      (socialNameBackfill user attrs).1.last_name = user.last_name) ∧
    (∀ v, user.first_name = "" → lookupAttr "first_name" attrs = some v →
      v ≠ "" → (socialNameBackfill user attrs).1.first_name = v) ∧
    (∀ v, user.last_name = "" → lookupAttr "last_name" attrs = some v →
      v ≠ "" → (socialNameBackfill user attrs).1.last_name = v) ∧
    ((socialNameBackfill user attrs).1.id = user.id ∧
     (socialNameBackfill user attrs).1.username = user.username ∧
     (socialNameBackfill user attrs).1.email = user.email ∧
     (socialNameBackfill user attrs).1.phone_number = user.phone_number ∧
     (socialNameBackfill user attrs).1.is_active = user.is_active) ∧
    (socialSaveFields user attrs = none ↔
      (socialNameBackfill user attrs).1.first_name = user.first_name ∧
      (socialNameBackfill user attrs).1.last_name = user.last_name) ∧
    (socialSaveFields user attrs = none ∨
      socialSaveFields user attrs = some (socialNameBackfill user attrs).2) ∧
    ("first_name" ∈ (socialNameBackfill user attrs).2 ↔
      (socialNameBackfill user attrs).1.first_name ≠ user.first_name) ∧
    ("last_name" ∈ (socialNameBackfill user attrs).2 ↔
      (socialNameBackfill user attrs).1.last_name ≠ user.last_name) := by
  by_cases h1 : user.first_name = "" <;>
    by_cases h4 : user.last_name = "" <;>
    rcases h2 : lookupAttr "first_name" attrs with _ | v1 <;>
    rcases h5 : lookupAttr "last_name" attrs with _ | v2 <;>
    first
      | (by_cases h3 : v1 = "" <;> by_cases h6 : v2 = "" <;>
          simp_all [socialNameBackfill, backfillField, socialSaveFields])
      | (by_cases h3 : v1 = "" <;>
          simp_all [socialNameBackfill, backfillField, socialSaveFields])
      | (by_cases h6 : v2 = "" <;>
          simp_all [socialNameBackfill, backfillField, socialSaveFields])
      | simp_all [socialNameBackfill, backfillField, socialSaveFields]

/-- C7 (witness): a user with empty `last_name` and a provider payload
with `last_name = "Doe"` ends with `last_name = "Doe"`, while a user with
`last_name = "Smith"` keeps it against the same payload. -/
theorem c7_social_backfill_witness :
    ((socialNameBackfill ⟨1, "u", "", "", "Jane", "", true⟩
        [("last_name", "Doe")]).1.last_name = "Doe") ∧
    ((socialNameBackfill ⟨1, "u", "", "", "Jane", "Smith", true⟩
        [("last_name", "Doe")]).1.last_name = "Smith") := by
  constructor
  · exact (c7_social_backfill ⟨1, "u", "", "", "Jane", "", true⟩
      [("last_name", "Doe")]).2.2.2.1 "Doe" rfl rfl (by decide)
  · exact (c7_social_backfill ⟨1, "u", "", "", "Jane", "Smith", true⟩
      [("last_name", "Doe")]).2.1 (by decide)

/-! ## C9 — narrow exception handling in the social handshake -/

/-- C9: the social handshake converts exactly provider cancellation and
forbidden-scope exceptions into the generic `AuthenticationFailed` —
which carries no provider-specific detail — and every other exception
raised by `do_auth` propagates unhandled; a resolved user passes
through. -/
theorem socialDoAuth_ok (u : User) : socialDoAuth (.ok u) = .ok u := rfl

theorem socialDoAuth_canceled (d : String) :
    socialDoAuth (.error (.authCanceled d)) = .authFailed authFailedDefault :=
  rfl

theorem socialDoAuth_forbidden (d : String) :
    socialDoAuth (.error (.authForbidden d)) = .authFailed authFailedDefault :=
  rfl

theorem socialDoAuth_other (n d : String) :
    socialDoAuth (.error (.other n d)) = .propagated (.other n d) := rfl

theorem c9_social_exception_scope (r : Except ProviderException User) :
    (socialDoAuth r = .authFailed authFailedDefault ↔
      (∃ d, r = .error (.authCanceled d)) ∨
      (∃ d, r = .error (.authForbidden d))) ∧
    (∀ e, socialDoAuth r = .authFailed e → e = authFailedDefault) ∧
    (∀ n d, r = .error (.other n d) →
      socialDoAuth r = .propagated (.other n d)) ∧
    (∀ u, r = .ok u → socialDoAuth r = .ok u) := by
  rcases r with e | u
  · rcases e with d | d | ⟨n, d⟩ <;>
      simp [socialDoAuth_canceled, socialDoAuth_forbidden, socialDoAuth_other]
  · simp [socialDoAuth_ok]

/-- C9 (witness): a provider cancellation is masked into the generic
`AuthenticationFailed`, while an unexpected `HTTPError` propagates with
its detail intact. -/
theorem c9_social_exception_scope_witness :
    socialDoAuth (.error (.authCanceled "provider detail")) =
      .authFailed authFailedDefault ∧
    socialDoAuth (.error (.other "HTTPError" "500")) =
      .propagated (.other "HTTPError" "500") := by
  constructor
  · exact (c9_social_exception_scope
      (.error (.authCanceled "provider detail"))).1.mpr
      (Or.inl ⟨"provider detail", rfl⟩)
  · exact (c9_social_exception_scope
      (.error (.other "HTTPError" "500"))).2.2.1 "HTTPError" "500" rfl

end DfAuth
